import Mathlib

/-!
Verification of the ephemeral build-and-run sandbox (the POST/GET route
handler, `runCommand`, `startServer`, `testHealthEndpoint`, and the
module-level `runningProjects` registry with its reaper timer).

The embedding is shallow: each JavaScript function is translated into a
pure Lean function over explicit inputs.  External effects (the outcome of
a spawned process, the HTTP response of a fetch, the JSON parser applied
to a manifest) are passed in as data or as oracle functions, and the
handler returns a record describing every externally visible effect
(response value, executed commands, files on disk, registry contents,
processes killed).
-/

namespace Sandbox

/-! ### String utilities

JavaScript `String.prototype.split` with a single-character separator, and
`String.prototype.includes`, modelled over the character list of a Lean
string so that everything reduces in the kernel. -/

/-- JS split with a one-character separator: `"a,b,".split(',') = ["a","b",""]`,
`"".split(',') = [""]`. -/
def splitCharList (sep : Char) (cs : List Char) : List (List Char) :=
  cs.foldr
    (fun c acc =>
      match acc with
      | [] => [[c]]
      | g :: gs => if c = sep then [] :: (g :: gs) else (c :: g) :: gs)
    [[]]

/-- JS `s.split(sep)` for a one-character separator. -/
def splitStr (sep : Char) (s : String) : List String :=
  (splitCharList sep s.data).map (fun g => String.mk g)

/-- The pattern occurs at the head of the character list. -/
def headMatches : List Char → List Char → Bool
  | [], _ => true
  | _ :: _, [] => false
  | a :: ps, b :: ss => a = b && headMatches ps ss

/-- The pattern occurs somewhere in the character list. -/
def hasSub (pat : List Char) : List Char → Bool
  | [] => pat.isEmpty
  | c :: cs => headMatches pat (c :: cs) || hasSub pat cs

/-- JS `s.includes(pat)`. -/
def containsSubstring (s pat : String) : Bool :=
  hasSub pat.data s.data

/-! ### Path model

`path.join(base, p)` concatenates the segments and normalizes, resolving
`..` against the absolute base (clamping at the filesystem root).  Paths
are segment lists relative to the process working directory. -/

/-- Node path normalization over segments: drops empty and `.` segments,
resolves `..` by popping (clamped at the root, as for absolute paths). -/
def normSegs (segs : List String) : List String :=
  segs.foldl
    (fun acc seg =>
      if seg = "" ∨ seg = "." then acc
      else if seg = ".." then acc.dropLast
      else acc ++ [seg])
    []

/-- The first path is an ancestor-or-equal of the second (segment lists). -/
def isUnder : List String → List String → Bool
  | [], _ => true
  | _ :: _, [] => false
  | a :: as, b :: bs => a = b && isUnder as bs

/-- The workspace directory for a project:
`path.join(process.cwd(), 'temp-projects', projectId)`, relative to cwd. -/
def tempDirFor (projectId : String) : List String :=
  ["temp-projects", projectId]

/-- The file-materialization loop: for every `(filepath, content)` entry of
the generated bundle, the handler computes `path.join(tempDir, filepath)`,
creates the parent directories, and writes the content there.  There is no
check on the resulting path. -/
def materialize (tempDir : List String) (files : List (String × String)) :
    List (List String × String) :=
  files.map (fun f => (normSegs (tempDir ++ splitStr '/' f.1), f.2))

/-! ### Command Runner (`runCommand`) -/

/-- Result shape resolved by `runCommand`: `{success, output?, error?}`. -/
structure CommandResult where
  success : Bool
  output : Option String
  error : Option String
deriving Repr, DecidableEq

/-- What the spawned child process did: either the `error` event fired
(spawn-level failure, e.g. executable not found), or the process ran and
the `close` event delivered an exit code (`none` models JS `null`, exit by
signal) together with the accumulated stdout and stderr. -/
inductive SpawnOutcome where
  | errored (msg : String)
  | closed (code : Option Int) (stdout : String) (stderr : String)
deriving Repr, DecidableEq

/-- JS template rendering of the exit code (`null` prints as "null"). -/
def codeText : Option Int → String
  | none => "null"
  | some n => toString n

/-- `runCommand(command, args, cwd)`: exit code 0 resolves
`{success: true, output}`; a nonzero (or null) code resolves
`{success: false, error: stderr || "Command failed with code N"}`; a spawn
error resolves `{success: false, error: err.message}`.  The promise is
always resolved, never rejected. -/
def runCommand (o : SpawnOutcome) : CommandResult :=
  match o with
  | .errored msg => ⟨false, none, some msg⟩
  | .closed code out err =>
    if code = some 0 then ⟨true, some out, none⟩
    else ⟨false, none, some (if err = "" then "Command failed with code " ++ codeText code else err)⟩

/-! ### Liveness prober (`testHealthEndpoint`) -/

/-- A delivered HTTP response (status, statusText, and the decoded JSON
body, abstracted as a string). -/
structure HttpResponse where
  status : Nat
  statusText : String
  body : String
deriving Repr, DecidableEq

/-- `response.ok`: status in the 2xx range. -/
def respOk (r : HttpResponse) : Bool :=
  200 ≤ r.status && r.status < 300

/-- Result shape of `testHealthEndpoint`. -/
structure HealthCheckResult where
  success : Bool
  response : Option String
  error : Option String
deriving Repr, DecidableEq

/-- `testHealthEndpoint(url)`: one GET; `response.ok` yields
`{success: true, response: body}`; a non-2xx status yields
`{success: false, error: "HTTP status: statusText"}`; a thrown fetch
failure (network error) is caught and yields `{success: false, error: msg}`. -/
def testHealthEndpoint (res : Except String HttpResponse) : HealthCheckResult :=
  match res with
  | .error msg => ⟨false, none, some msg⟩
  | .ok r =>
    if respOk r then ⟨true, some r.body, none⟩
    else ⟨false, none, some ("HTTP " ++ toString r.status ++ ": " ++ r.statusText)⟩

/-! ### Process Launcher (`startServer`)

`startServer(cwd, port, projectId)` spawns `npm start` and installs four
callbacks: a stdout handler that accumulates output and resolves success as
soon as the cumulative output contains a readiness phrase, a stderr
accumulator, a `close` handler that resolves failure on a nonzero exit
code, an `error` handler, and a 30-second `setTimeout` whose callback
unconditionally calls `serverProcess.kill()` (guarded only by the `killed`
flag) and then resolves a startup-timeout failure.  The timer is never
cleared.

Node's event loop delivers these callbacks sequentially, so a launch
attempt is modelled as the ordered sequence of callback firings; the
element `startupTimer` marks the 30-second point.  The promise keeps the
first resolution. -/

/-- One callback firing during a launch attempt. -/
inductive SrvEvent where
  | stdoutData (chunk : String)
  | stderrData (chunk : String)
  | closed (code : Option Int)
  | errored (msg : String)
  | startupTimer
deriving Repr, DecidableEq

/-- How the `startServer` promise resolved.  `ready` corresponds to
`{success: true, process: serverProcess}` (the live handle is attached);
`failed msg` to `{success: false, error: msg}`. -/
inductive LaunchOutcome where
  | ready
  | failed (msg : String)
deriving Repr, DecidableEq

/-- The message of the nonzero-exit resolution:
`Server process exited with code N: <stderr>`. -/
def exitMsg (code : Option Int) (stderr : String) : String :=
  "Server process exited with code " ++ codeText code ++ ": " ++ stderr

/-- The three case-sensitive readiness phrases watched in stdout. -/
def readinessPhrases : List String :=
  ["Server running", "Listening on port", "started"]

/-- The cumulative stdout contains a readiness phrase. -/
def hasReadiness (out : String) : Bool :=
  readinessPhrases.any (fun p => containsSubstring out p)

/-- A promise keeps its first resolution; later `resolve` calls are no-ops. -/
def keepFirst (a : Option LaunchOutcome) (b : Option LaunchOutcome) : Option LaunchOutcome :=
  match a with
  | some r => some r
  | none => b

/-- The observable state of one launch attempt: accumulated stdout and
stderr, the promise resolution (first wins), whether `kill()` was invoked,
whether the process has exited, and whether a `kill()` reached a process
that had not already exited (i.e., actually terminated a live process). -/
structure SimState where
  output : String
  errbuf : String
  resolved : Option LaunchOutcome
  killed : Bool
  exited : Bool
  killedLive : Bool
deriving Repr, DecidableEq

/-- The state before any callback fires. -/
def initSim : SimState :=
  ⟨"", "", none, false, false, false⟩

/-- One callback firing, exactly as the handlers in `startServer` run:
stdout appends then checks the cumulative output for readiness; `close`
resolves failure only on a nonzero (or null) code; the timer callback
kills the process (the `killed` flag can only be set by this very timer,
so the guard always passes) and then resolves the timeout failure. -/
def stepServer (s : SimState) (e : SrvEvent) : SimState :=
  match e with
  | .stdoutData c =>
    let out := s.output ++ c
    { s with
      output := out
      resolved := keepFirst s.resolved (if hasReadiness out then some .ready else none) }
  | .stderrData c => { s with errbuf := s.errbuf ++ c }
  | .closed code =>
    { s with
      exited := true
      resolved := keepFirst s.resolved
        (if code = some 0 then none else some (.failed (exitMsg code s.errbuf))) }
  | .errored msg => { s with resolved := keepFirst s.resolved (some (.failed msg)) }
  | .startupTimer =>
    { s with
      killed := true
      killedLive := s.killedLive || !s.exited
      resolved := keepFirst s.resolved (some (.failed "Server startup timeout")) }

/-- A whole launch attempt: fold the callback sequence from the initial
state. -/
def startServer (tr : List SrvEvent) : SimState :=
  tr.foldl stepServer initSim

/-- The promise resolution after a callback sequence. -/
def resolvedOf (tr : List SrvEvent) : Option LaunchOutcome :=
  (startServer tr).resolved

/-- Accumulated stdout after a callback sequence. -/
def outputOf (tr : List SrvEvent) : String :=
  (startServer tr).output

/-- Accumulated stderr after a callback sequence. -/
def errbufOf (tr : List SrvEvent) : String :=
  (startServer tr).errbuf

/-! ### Package manifest (`package.json` synthesis) -/

/-- The manifest value the handler manipulates. -/
structure PackageJson where
  name : String
  version : String
  description : String
  main : String
  scripts : List (String × String)
  dependencies : List (String × String)
  devDependencies : List (String × String)
deriving Repr, DecidableEq

/-- The four lifecycle scripts the handler always injects. -/
def canonicalScripts : List (String × String) :=
  [("build", "tsc"),
   ("dev", "ts-node src/app.ts"),
   ("start", "node dist/app.js"),
   ("test", "echo \"No tests specified\" && exit 0")]

/-- JS object update `{...m, k: v}` restricted to one key: an existing key
keeps its position and takes the new value, a new key is appended. -/
def setKey (m : List (String × String)) (k v : String) : List (String × String) :=
  if m.any (fun e => e.1 = k) then m.map (fun e => if e.1 = k then (k, v) else e)
  else m ++ [(k, v)]

/-- The spread `{...packageJson.scripts, build: ..., dev: ..., start: ...,
test: ...}`: the canonical scripts override entries of the same name and
are appended otherwise. -/
def mergeScripts (old : List (String × String)) : List (String × String) :=
  canonicalScripts.foldl (fun m kv => setKey m kv.1 kv.2) old

/-- One of the JS whitespace characters recognized by `\s`
(the ones relevant to command strings and project names). -/
def isWsChar (c : Char) : Bool :=
  c = ' ' || c = '\t' || c = '\n' || c = '\r'

/-- One step of `name.replace(/\s+/g, '-')`: the accumulator carries the
rendered characters and whether the previous character was whitespace. -/
def squashStep (acc : List Char × Bool) (c : Char) : List Char × Bool :=
  if isWsChar c then (if acc.2 then acc.1 else acc.1 ++ ['-'], true)
  else (acc.1 ++ [c], false)

/-- ASCII lowercasing of one character (the effect of `toLowerCase()` on
the characters appearing in project names). -/
def lowerChar (c : Char) : Char :=
  if 65 ≤ c.toNat ∧ c.toNat ≤ 90 then Char.ofNat (c.toNat + 32) else c

/-- `project.name.toLowerCase().replace(/\s+/g, '-')`. -/
def slugify (s : String) : String :=
  String.mk ((s.data.map lowerChar).foldl squashStep ([], false)).1

/-! ### Persisted inputs (loaded from the database) -/

/-- The stored `generatedApis[0].code` blob as seen through `JSON.parse`
followed by the `typeof codeData === 'object'` check: a JSON object (a
relative-path → content mapping), some other JSON value, or text that does
not parse. -/
inductive CodeBlob where
  | objBlob (fields : List (String × String))
  | nonObjBlob
  | invalidBlob
deriving Repr, DecidableEq

/-- Lines 67–82 of the handler: `generatedFiles` starts as `{}`; when a
generated-API row exists its code blob is parsed — an object replaces the
mapping, a non-object is ignored, and a parse error produces the 500
"Failed to parse generated project files" response. -/
def parseGeneratedFiles (apis : List CodeBlob) : Except Unit (List (String × String)) :=
  match apis with
  | [] => .ok []
  | blob :: _ =>
    match blob with
    | .objBlob fields => .ok fields
    | .nonObjBlob => .ok []
    | .invalidBlob => .error ()

/-- A stored setup command: the command string and its declared order. -/
structure SetupCmd where
  command : String
  order : Nat
deriving Repr, DecidableEq

/-- The sort key of the Prisma query `setupCommands: {orderBy: {order: 'asc'}}`. -/
def setupLe (a b : SetupCmd) : Prop :=
  a.order ≤ b.order

instance : DecidableRel setupLe := fun a b => Nat.decLe a.order b.order

instance : IsTotal SetupCmd setupLe := ⟨fun a b => Nat.le_total a.order b.order⟩

instance : IsTrans SetupCmd setupLe := ⟨fun _ _ _ => Nat.le_trans⟩

/-- The ascending, stable ordering in which the database returns the setup
commands (`orderBy: {order: 'asc'}`). -/
def sortSetup (l : List SetupCmd) : List SetupCmd :=
  l.insertionSort setupLe

/-- A program name with its argument vector, as handed to `runCommand`. -/
structure CmdCall where
  prog : String
  args : List String
deriving Repr, DecidableEq

/-- `const [cmd, ...args] = setupCmd.command.split(' ')`: the string is
divided at each single space character; the first piece is the program,
the rest the argument vector. -/
def splitCmd (s : String) : CmdCall :=
  match splitStr ' ' s with
  | [] => ⟨"", []⟩
  | p :: as => ⟨p, as⟩

/-- Modelled from the spec: the division the spec's words describe —
"each command string is split on whitespace into a program and argument
vector", i.e. the string divided at maximal runs of whitespace characters.
Stated only for comparison against `splitCmd`, which models the source. -/
def wsSplitCmdSpec (s : String) : CmdCall :=
  match ((splitCharList ' ' (s.data.map (fun c => if isWsChar c then ' ' else c))).filter
      (fun g => !g.isEmpty)).map (fun g => String.mk g) with
  | [] => ⟨"", []⟩
  | p :: as => ⟨p, as⟩

/-- The project row fields the handler uses. -/
structure DbProject where
  name : String
  description : Option String
  completed : Bool
  generatedApis : List CodeBlob
  setupCommands : List SetupCmd

/-- Lines 119–133: read `package.json` from the workspace; on a read or
parse failure fall back to the default manifest derived from the project
row. -/
def defaultPkg (proj : DbProject) : PackageJson :=
  { name := slugify proj.name
    version := "1.0.0"
    description := proj.description.getD ""
    main := "dist/app.js"
    scripts := []
    dependencies := []
    devDependencies := [] }

/-! ### The run registry (`runningProjects`) -/

/-- A registered running instance: assigned port, spawned process id,
workspace path, ISO start time (abstracted as a number). -/
structure RunningInstance where
  port : Nat
  procId : Nat
  tempDir : List String
  startedAt : Nat
deriving Repr, DecidableEq

/-- `runningProjects.set(k, v)`: an existing key keeps its position and
takes the new value; a new key is appended. -/
def setEntry (m : List (String × RunningInstance)) (k : String) (v : RunningInstance) :
    List (String × RunningInstance) :=
  if m.any (fun e => e.1 = k) then m.map (fun e => if e.1 = k then (k, v) else e)
  else m ++ [(k, v)]

/-- `runningProjects.delete(k)`. -/
def removeEntry (m : List (String × RunningInstance)) (k : String) :
    List (String × RunningInstance) :=
  m.filter (fun e => e.1 ≠ k)

/-- `runningProjects.get(k)`. -/
def getEntry (m : List (String × RunningInstance)) (k : String) : Option RunningInstance :=
  (m.find? (fun e => e.1 = k)).map (fun e => e.2)

/-! ### The POST handler (run orchestration) -/

/-- Content of a file on disk: ordinary text, or the pretty-printed
serialization of a manifest value (kept structured in the model). -/
inductive FileContent where
  | text (s : String)
  | pkg (p : PackageJson)
deriving Repr, DecidableEq

/-- Read the file at a path from the modelled disk. -/
def lookupFile (fs : List (List String × FileContent)) (p : List String) : Option FileContent :=
  (fs.find? (fun e => e.1 = p)).map (fun e => e.2)

/-- `fs.writeFile`: overwrite the entry at the path, or create it. -/
def setFile (fs : List (List String × FileContent)) (p : List String) (c : FileContent) :
    List (List String × FileContent) :=
  if fs.any (fun e => e.1 = p) then fs.map (fun e => if e.1 = p then (p, c) else e)
  else fs ++ [(p, c)]

/-- Lines 116–145: read `tempDir/package.json` (present only if the bundle
materialized a file at that path); a read or parse failure falls back to
the default manifest; the canonical scripts are then spread over
`packageJson.scripts`. -/
def ensureManifest (parsePkg : String → Option PackageJson) (proj : DbProject)
    (disk : List (List String × FileContent)) (tempDir : List String) : PackageJson :=
  let base :=
    match lookupFile disk (tempDir ++ ["package.json"]) with
    | some (.text s) => (parsePkg s).getD (defaultPkg proj)
    | some (.pkg p) => p
    | none => defaultPkg proj
  { base with scripts := mergeScripts base.scripts }

/-- The orchestrator's view of a `startServer` resolution: the success
flag, the spawned process id (meaningful on success, when the live handle
is returned), and the error message on failure. -/
structure LaunchResultO where
  success : Bool
  procId : Nat
  error : Option String
deriving Repr, DecidableEq

/-- The JSON value the POST handler returns. -/
inductive RunResponse where
  | notCompleted
  | parseFailure
  | stepFailure (step : String) (details : Option String)
  | succeeded (port : Nat) (health : HealthCheckResult) (buildLog : Option String)
deriving Repr, DecidableEq

/-- Every externally visible effect of one POST invocation: the response,
the commands handed to `runCommand` in order, the files present in the
scratch area afterwards, whether the workspace directory exists afterwards,
the registry contents, the manifest that was written (when the pipeline
got that far), the processes the handler killed, and whether a reaper
timer was scheduled. -/
structure RunOutcome where
  response : RunResponse
  calls : List CmdCall
  fsFiles : List (List String × FileContent)
  tempDirExists : Bool
  registry : List (String × RunningInstance)
  manifest : Option PackageJson
  killedPids : List Nat
  launched : Bool
  reaperScheduled : Bool
deriving Repr, DecidableEq

/-- The contents of the scratch area that survive
`fs.rm(tempDir, {recursive: true, force: true})`: everything not under the
workspace directory. -/
def clearedFiles (preFiles : List (List String × FileContent)) (tempDir : List String) :
    List (List String × FileContent) :=
  preFiles.filter (fun f => !isUnder tempDir f.1)

/-- The disk entries produced by the materialization loop. -/
def writtenFiles (tempDir : List String) (bundle : List (String × String)) :
    List (List String × FileContent) :=
  (materialize tempDir bundle).map (fun f => (f.1, FileContent.text f.2))

/-- The scratch area right after materialization: survivors of the
force-remove plus this run's writes. -/
def baseDisk (preFiles : List (List String × FileContent)) (tempDir : List String)
    (bundle : List (String × String)) : List (List String × FileContent) :=
  clearedFiles preFiles tempDir ++ writtenFiles tempDir bundle

/-- The manifest value written back to `tempDir/package.json`. -/
def manifestAfter (parsePkg : String → Option PackageJson) (proj : DbProject)
    (preFiles : List (List String × FileContent)) (tempDir : List String)
    (bundle : List (String × String)) : PackageJson :=
  ensureManifest parsePkg proj (baseDisk preFiles tempDir bundle) tempDir

/-- The scratch area after the manifest write (unchanged by every later
step of the handler until the reaper fires). -/
def diskAfter (parsePkg : String → Option PackageJson) (proj : DbProject)
    (preFiles : List (List String × FileContent)) (tempDir : List String)
    (bundle : List (String × String)) : List (List String × FileContent) :=
  setFile (baseDisk preFiles tempDir bundle) (tempDir ++ ["package.json"])
    (.pkg (manifestAfter parsePkg proj preFiles tempDir bundle))

/-- The `runCommand` invocations of the setup-command loop: the database
rows in ascending declared order, each command string split on the space
character. -/
def setupCallsOf (proj : DbProject) : List CmdCall :=
  (sortSetup proj.setupCommands).map (fun c => splitCmd c.command)

/-- Every command the pipeline hands to `runCommand` once `npm install`
has succeeded: install, the setup commands, `npm run build`. -/
def callsAll (proj : DbProject) : List CmdCall :=
  ⟨"npm", ["install"]⟩ :: setupCallsOf proj ++ [⟨"npm", ["run", "build"]⟩]

/-- The POST handler, lines 11–262, as a function of its inputs: the
registry and disk state on entry (`w0`, `preFiles`, `preDirExists`), the
loaded project row, a JSON-parse oracle for the manifest, a command
oracle `exec` giving the `runCommand` result of the i-th executed command,
the `startServer` resolution, the drawn port, the clock, and the health
probe result.

The flow mirrors the source: completion check; parse of the generated
files blob; force-remove and recreate of the workspace; materialization of
every bundle entry at `path.join(tempDir, filepath)`; manifest synthesis
and write; `npm install` (fail-fast, early return); the setup commands in
database order (results ignored beyond a warning); `npm run build`
(fail-fast, early return); `startServer` (fail-fast, early return); the
health probe; `runningProjects.set`; the reaper `setTimeout`; the success
response.  The early-return failure paths do not delete the workspace —
only the `catch` over thrown errors does, and no modelled step throws. -/
def postRun (w0 : List (String × RunningInstance))
    (preFiles : List (List String × FileContent)) (preDirExists : Bool)
    (projectId : String) (proj : DbProject)
    (parsePkg : String → Option PackageJson)
    (exec : Nat → CommandResult)
    (launch : LaunchResultO) (port : Nat) (now : Nat)
    (health : HealthCheckResult) : RunOutcome :=
  if !proj.completed then
    ⟨.notCompleted, [], preFiles, preDirExists, w0, none, [], false, false⟩
  else
    match parseGeneratedFiles proj.generatedApis with
    | .error _ => ⟨.parseFailure, [], preFiles, preDirExists, w0, none, [], false, false⟩
    | .ok bundle =>
      let tempDir := tempDirFor projectId
      let pkg := manifestAfter parsePkg proj preFiles tempDir bundle
      let disk := diskAfter parsePkg proj preFiles tempDir bundle
      let installRes := exec 0
      if !installRes.success then
        ⟨.stepFailure "npm install" installRes.error, [⟨"npm", ["install"]⟩], disk, true, w0,
          some pkg, [], false, false⟩
      else
        let buildRes := exec ((setupCallsOf proj).length + 1)
        if !buildRes.success then
          ⟨.stepFailure "npm run build" buildRes.error, callsAll proj, disk, true, w0,
            some pkg, [], false, false⟩
        else if !launch.success then
          ⟨.stepFailure "server start" launch.error, callsAll proj, disk, true, w0,
            some pkg, [], true, false⟩
        else
          let inst : RunningInstance := ⟨port, launch.procId, tempDir, now⟩
          ⟨.succeeded port health buildRes.output, callsAll proj, disk, true,
            setEntry w0 projectId inst, some pkg, [], true, true⟩

/-! ### The reaper (`setTimeout` body, lines 216–228) -/

/-- What the reaper did: which of its three steps were attempted, the
resulting registry, the process it killed (if any), whether the workspace
directory was removed, and whether anything propagated out of the
callback. -/
structure ReaperOutcome where
  killTried : Bool
  rmTried : Bool
  deleteTried : Bool
  registry : List (String × RunningInstance)
  procKilled : Option Nat
  dirRemoved : Bool
  raised : Bool
deriving Repr, DecidableEq

/-- The reaper callback: inside a single `try`, it looks up the instance,
calls `kill()` when a process is present, awaits `fs.rm` of the workspace,
and deletes the registry entry; the single `catch` logs a warning.  A
throw from `kill` (modelled by `killFails`) jumps to the `catch`, skipping
the removal and the registry delete; a throw from `fs.rm` (`rmFails`)
skips the registry delete.  Nothing propagates past the `catch`. -/
def reaper (reg : List (String × RunningInstance)) (projectId : String)
    (killFails rmFails : Bool) : ReaperOutcome :=
  match getEntry reg projectId with
  | some inst =>
    if killFails then ⟨true, false, false, reg, none, false, false⟩
    else if rmFails then ⟨true, true, false, reg, some inst.procId, false, false⟩
    else ⟨true, true, true, removeEntry reg projectId, some inst.procId, true, false⟩
  | none =>
    if rmFails then ⟨false, true, false, reg, none, false, false⟩
    else ⟨false, true, true, removeEntry reg projectId, none, true, false⟩

end Sandbox

section EmbeddingChecks
open Sandbox

example : splitStr ' ' "npx prisma migrate" = ["npx", "prisma", "migrate"] := by decide

example : splitStr ' ' "npm  install" = ["npm", "", "install"] := by decide

example : containsSubstring "Server running on port 3001" "Server running" = true := by decide

example : normSegs (["temp-projects", "p1"] ++ splitStr '/' "../evil.txt") =
    ["temp-projects", "evil.txt"] := by decide

example : runCommand (.closed (some 1) "" "") =
    ⟨false, none, some "Command failed with code 1"⟩ := by decide

example : startServer [.stderrData "boom", .closed (some 1)] =
    ⟨"", "boom", some (.failed "Server process exited with code 1: boom"), false, true, false⟩ := by
  decide

example : slugify "My App" = "my-app" := by decide

end EmbeddingChecks

namespace Sandbox

/-! ### Helper lemmas -/

theorem keepFirst_none (a : Option LaunchOutcome) : keepFirst a none = a := by
  cases a <;> rfl

theorem resolved_keepFirst (s : SimState) (e : SrvEvent) :
    ∃ b, (stepServer s e).resolved = keepFirst s.resolved b := by
  cases e <;>
    first
      | exact ⟨_, rfl⟩
      | exact ⟨none, by simp [stepServer, keepFirst_none]⟩

theorem resolved_stays (s : SimState) (r : LaunchOutcome) (h : s.resolved = some r) :
    ∀ tr : List SrvEvent, (tr.foldl stepServer s).resolved = some r := by
  intro tr
  induction tr generalizing s with
  | nil => simpa using h
  | cons e tr ih =>
    rw [List.foldl_cons]
    apply ih
    obtain ⟨b, hb⟩ := resolved_keepFirst s e
    rw [hb, h]
    rfl

theorem killed_stays (s : SimState) (h : s.killed = true) :
    ∀ tr : List SrvEvent, (tr.foldl stepServer s).killed = true := by
  intro tr
  induction tr generalizing s with
  | nil => simpa using h
  | cons e tr ih =>
    rw [List.foldl_cons]
    apply ih
    cases e <;> simp [stepServer, h]

theorem startServer_append_cons (pre : List SrvEvent) (e : SrvEvent) (post : List SrvEvent) :
    startServer (pre ++ e :: post) = post.foldl stepServer (stepServer (startServer pre) e) := by
  simp [startServer, List.foldl_append]

section PostRunLemmas

variable (w0 : List (String × RunningInstance))
variable (preFiles : List (List String × FileContent)) (preDirExists : Bool)
variable (projectId : String) (proj : DbProject)
variable (parsePkg : String → Option PackageJson) (exec : Nat → CommandResult)
variable (launch : LaunchResultO) (port : Nat) (now : Nat) (health : HealthCheckResult)
variable (bundle : List (String × String))

theorem postRun_parseFail (hc : proj.completed = true)
    (hb : parseGeneratedFiles proj.generatedApis = .error ()) :
    postRun w0 preFiles preDirExists projectId proj parsePkg exec launch port now health =
      ⟨.parseFailure, [], preFiles, preDirExists, w0, none, [], false, false⟩ := by
  simp [postRun, hc, hb]

theorem postRun_installFail (hc : proj.completed = true)
    (hb : parseGeneratedFiles proj.generatedApis = .ok bundle)
    (hi : (exec 0).success = false) :
    postRun w0 preFiles preDirExists projectId proj parsePkg exec launch port now health =
      ⟨.stepFailure "npm install" (exec 0).error, [⟨"npm", ["install"]⟩],
        diskAfter parsePkg proj preFiles (tempDirFor projectId) bundle, true, w0,
        some (manifestAfter parsePkg proj preFiles (tempDirFor projectId) bundle),
        [], false, false⟩ := by
  simp [postRun, hc, hb, hi]

theorem postRun_buildFail (hc : proj.completed = true)
    (hb : parseGeneratedFiles proj.generatedApis = .ok bundle)
    (hi : (exec 0).success = true)
    (hbd : (exec ((setupCallsOf proj).length + 1)).success = false) :
    postRun w0 preFiles preDirExists projectId proj parsePkg exec launch port now health =
      ⟨.stepFailure "npm run build" (exec ((setupCallsOf proj).length + 1)).error,
        callsAll proj,
        diskAfter parsePkg proj preFiles (tempDirFor projectId) bundle, true, w0,
        some (manifestAfter parsePkg proj preFiles (tempDirFor projectId) bundle),
        [], false, false⟩ := by
  simp [postRun, hc, hb, hi, hbd]

theorem postRun_launchFail (hc : proj.completed = true)
    (hb : parseGeneratedFiles proj.generatedApis = .ok bundle)
    (hi : (exec 0).success = true)
    (hbd : (exec ((setupCallsOf proj).length + 1)).success = true)
    (hl : launch.success = false) :
    postRun w0 preFiles preDirExists projectId proj parsePkg exec launch port now health =
      ⟨.stepFailure "server start" launch.error, callsAll proj,
        diskAfter parsePkg proj preFiles (tempDirFor projectId) bundle, true, w0,
        some (manifestAfter parsePkg proj preFiles (tempDirFor projectId) bundle),
        [], true, false⟩ := by
  simp [postRun, hc, hb, hi, hbd, hl]

theorem postRun_ok (hc : proj.completed = true)
    (hb : parseGeneratedFiles proj.generatedApis = .ok bundle)
    (hi : (exec 0).success = true)
    (hbd : (exec ((setupCallsOf proj).length + 1)).success = true)
    (hl : launch.success = true) :
    postRun w0 preFiles preDirExists projectId proj parsePkg exec launch port now health =
      ⟨.succeeded port health (exec ((setupCallsOf proj).length + 1)).output,
        callsAll proj,
        diskAfter parsePkg proj preFiles (tempDirFor projectId) bundle, true,
        setEntry w0 projectId ⟨port, launch.procId, tempDirFor projectId, now⟩,
        some (manifestAfter parsePkg proj preFiles (tempDirFor projectId) bundle),
        [], true, true⟩ := by
  simp [postRun, hc, hb, hi, hbd, hl]

theorem postRun_registry_of_launchFail (hl : launch.success = false) :
    (postRun w0 preFiles preDirExists projectId proj parsePkg exec launch port now health).registry
      = w0 := by
  unfold postRun
  split
  · rfl
  · split
    · rfl
    · dsimp only
      split
      · rfl
      · split
        · rfl
        · split
          · rfl
          · simp_all

end PostRunLemmas

theorem setEntry_keys (m : List (String × RunningInstance)) (k : String) (v : RunningInstance) :
    (setEntry m k v).map Prod.fst =
      if m.any (fun e => e.1 = k) then m.map Prod.fst else m.map Prod.fst ++ [k] := by
  unfold setEntry
  split
  · rw [List.map_map]
    apply List.map_congr_left
    intro e _
    by_cases h : e.1 = k <;> simp [h]
  · simp

theorem setEntry_keys_nodup (m : List (String × RunningInstance)) (k : String)
    (v : RunningInstance) (h : (m.map Prod.fst).Nodup) :
    ((setEntry m k v).map Prod.fst).Nodup := by
  rw [setEntry_keys]
  split
  · exact h
  case isFalse hany =>
    have hk : k ∉ m.map Prod.fst := by
      intro hmem
      obtain ⟨e, he, hek⟩ := List.mem_map.mp hmem
      exact hany (List.any_eq_true.mpr ⟨e, he, by simp [hek]⟩)
    refine h.append (List.nodup_singleton k) ?_
    intro a ha hb
    rw [List.mem_singleton] at hb
    exact hk (hb ▸ ha)

theorem setEntry_no_stale (m : List (String × RunningInstance)) (k : String)
    (v : RunningInstance) : ∀ e ∈ setEntry m k v, e.1 = k → e = (k, v) := by
  intro e he hk
  unfold setEntry at he
  split at he
  · obtain ⟨x, hx, hfx⟩ := List.mem_map.mp he
    by_cases h : x.1 = k
    · rw [if_pos h] at hfx
      exact hfx.symm
    · rw [if_neg h] at hfx
      subst hfx
      exact absurd hk h
  case isFalse hany =>
    rcases List.mem_append.mp he with h | h
    · exact absurd (List.any_eq_true.mpr ⟨e, h, by simp [hk]⟩) hany
    · simpa using h

theorem getEntry_setEntry (m : List (String × RunningInstance)) (k : String)
    (v : RunningInstance) : getEntry (setEntry m k v) k = some v := by
  induction m with
  | nil => simp [setEntry, getEntry]
  | cons e m ih =>
    by_cases h : e.1 = k
    · simp [setEntry, getEntry, h, List.find?]
    · by_cases h2 : m.any (fun x => x.1 = k)
      · have ihm := ih
        rw [setEntry, if_pos h2] at ihm
        simpa [setEntry, getEntry, h, h2, List.find?] using ihm
      · have ihm := ih
        rw [setEntry, if_neg h2] at ihm
        simpa [setEntry, getEntry, h, h2, List.find?, List.any_eq_true] using ihm

theorem mem_setFile (fs : List (List String × FileContent)) (p : List String) (c : FileContent) :
    ∀ x ∈ setFile fs p c, x ∈ fs ∨ x = (p, c) := by
  intro x hx
  unfold setFile at hx
  split at hx
  · obtain ⟨y, hy, hfy⟩ := List.mem_map.mp hx
    by_cases h : y.1 = p
    · rw [if_pos h] at hfy
      exact .inr hfy.symm
    · rw [if_neg h] at hfy
      exact .inl (hfy ▸ hy)
  · rcases List.mem_append.mp hx with h | h
    · exact .inl h
    · right; simpa using h

theorem mem_clearedFiles (pf : List (List String × FileContent)) (t : List String) :
    ∀ x ∈ clearedFiles pf t, isUnder t x.1 = false := by
  intro x hx
  have := (List.mem_filter.mp hx).2
  simpa using this

theorem isUnder_append (t l : List String) : isUnder t (t ++ l) = true := by
  induction t with
  | nil => rfl
  | cons a t ih => simp [isUnder, ih]

theorem lookupFile_clearedFiles (pf : List (List String × FileContent)) (t l : List String) :
    lookupFile (clearedFiles pf t) (t ++ l) = none := by
  unfold lookupFile
  have hnone : (clearedFiles pf t).find? (fun e => e.1 = t ++ l) = none := by
    apply List.find?_eq_none.mpr
    intro x hx hcontra
    have hfalse := mem_clearedFiles pf t x hx
    rw [of_decide_eq_true hcontra, isUnder_append] at hfalse
    simp at hfalse
  rw [hnone]
  rfl

section PipelineLemmas

variable (w0 : List (String × RunningInstance))
variable (preFiles : List (List String × FileContent)) (preDirExists : Bool)
variable (projectId : String) (proj : DbProject)
variable (parsePkg : String → Option PackageJson) (exec : Nat → CommandResult)
variable (launch : LaunchResultO) (port : Nat) (now : Nat) (health : HealthCheckResult)
variable (bundle : List (String × String))

theorem postRun_fsFiles_pipeline (hc : proj.completed = true)
    (hb : parseGeneratedFiles proj.generatedApis = .ok bundle) :
    (postRun w0 preFiles preDirExists projectId proj parsePkg exec launch
        port now health).fsFiles =
      diskAfter parsePkg proj preFiles (tempDirFor projectId) bundle := by
  cases hi : (exec 0).success with
  | false =>
    rw [postRun_installFail w0 preFiles preDirExists projectId proj parsePkg exec launch
      port now health bundle hc hb hi]
  | true =>
    cases hbd : (exec ((setupCallsOf proj).length + 1)).success with
    | false =>
      rw [postRun_buildFail w0 preFiles preDirExists projectId proj parsePkg exec launch
        port now health bundle hc hb hi hbd]
    | true =>
      cases hl : launch.success with
      | false =>
        rw [postRun_launchFail w0 preFiles preDirExists projectId proj parsePkg exec launch
          port now health bundle hc hb hi hbd hl]
      | true =>
        rw [postRun_ok w0 preFiles preDirExists projectId proj parsePkg exec launch
          port now health bundle hc hb hi hbd hl]

theorem postRun_manifest_pipeline (hc : proj.completed = true)
    (hb : parseGeneratedFiles proj.generatedApis = .ok bundle) :
    (postRun w0 preFiles preDirExists projectId proj parsePkg exec launch
        port now health).manifest =
      some (manifestAfter parsePkg proj preFiles (tempDirFor projectId) bundle) := by
  cases hi : (exec 0).success with
  | false =>
    rw [postRun_installFail w0 preFiles preDirExists projectId proj parsePkg exec launch
      port now health bundle hc hb hi]
  | true =>
    cases hbd : (exec ((setupCallsOf proj).length + 1)).success with
    | false =>
      rw [postRun_buildFail w0 preFiles preDirExists projectId proj parsePkg exec launch
        port now health bundle hc hb hi hbd]
    | true =>
      cases hl : launch.success with
      | false =>
        rw [postRun_launchFail w0 preFiles preDirExists projectId proj parsePkg exec launch
          port now health bundle hc hb hi hbd hl]
      | true =>
        rw [postRun_ok w0 preFiles preDirExists projectId proj parsePkg exec launch
          port now health bundle hc hb hi hbd hl]

theorem postRun_calls_pipeline (hc : proj.completed = true)
    (hb : parseGeneratedFiles proj.generatedApis = .ok bundle)
    (hi : (exec 0).success = true) :
    (postRun w0 preFiles preDirExists projectId proj parsePkg exec launch
        port now health).calls = callsAll proj := by
  cases hbd : (exec ((setupCallsOf proj).length + 1)).success with
  | false =>
    rw [postRun_buildFail w0 preFiles preDirExists projectId proj parsePkg exec launch
      port now health bundle hc hb hi hbd]
  | true =>
    cases hl : launch.success with
    | false =>
      rw [postRun_launchFail w0 preFiles preDirExists projectId proj parsePkg exec launch
        port now health bundle hc hb hi hbd hl]
    | true =>
      rw [postRun_ok w0 preFiles preDirExists projectId proj parsePkg exec launch
        port now health bundle hc hb hi hbd hl]

theorem postRun_calls_head (hc : proj.completed = true)
    (hb : parseGeneratedFiles proj.generatedApis = .ok bundle) :
    (postRun w0 preFiles preDirExists projectId proj parsePkg exec launch
        port now health).calls.head? = some ⟨"npm", ["install"]⟩ := by
  cases hi : (exec 0).success with
  | false =>
    rw [postRun_installFail w0 preFiles preDirExists projectId proj parsePkg exec launch
      port now health bundle hc hb hi]
    rfl
  | true =>
    rw [postRun_calls_pipeline w0 preFiles preDirExists projectId proj parsePkg exec launch
      port now health bundle hc hb hi]
    rfl

theorem postRun_killedPids (w0 preFiles preDirExists projectId proj parsePkg exec launch
    port now health) :
    (postRun w0 preFiles preDirExists projectId proj parsePkg exec launch
        port now health).killedPids = [] := by
  unfold postRun
  split
  · rfl
  · split
    · rfl
    · dsimp only
      split
      · rfl
      · split
        · rfl
        · split
          · rfl
          · rfl

theorem diskAfter_text_mem (parsePkg proj) (pf : List (List String × FileContent))
    (t : List String) (bundle : List (String × String)) (p : List String) (c : String)
    (hmem : (p, FileContent.text c) ∈ diskAfter parsePkg proj pf t bundle)
    (hunder : isUnder t p = true) :
    (p, c) ∈ materialize t bundle := by
  rcases mem_setFile _ _ _ _ hmem with h | h
  · rcases List.mem_append.mp h with h | h
    · have hfalse := mem_clearedFiles pf t _ h
      rw [hunder] at hfalse
      simp at hfalse
    · obtain ⟨f, hf, hff⟩ := List.mem_map.mp h
      obtain ⟨h1, h2⟩ := Prod.mk.injEq .. ▸ hff
      cases h2
      exact h1 ▸ hf
  · simp at h

theorem postRun_response_not_parseFailure (w0 : List (String × RunningInstance))
    (preFiles : List (List String × FileContent)) (preDirExists : Bool)
    (projectId : String) (proj : DbProject) (parsePkg : String → Option PackageJson)
    (exec : Nat → CommandResult) (launch : LaunchResultO) (port : Nat) (now : Nat)
    (health : HealthCheckResult) (bundle : List (String × String))
    (hc : proj.completed = true)
    (hb : parseGeneratedFiles proj.generatedApis = .ok bundle) :
    (postRun w0 preFiles preDirExists projectId proj parsePkg exec launch
        port now health).response ≠ .parseFailure := by
  cases hi : (exec 0).success with
  | false =>
    rw [postRun_installFail w0 preFiles preDirExists projectId proj parsePkg exec launch
      port now health bundle hc hb hi]
    simp
  | true =>
    cases hbd : (exec ((setupCallsOf proj).length + 1)).success with
    | false =>
      rw [postRun_buildFail w0 preFiles preDirExists projectId proj parsePkg exec launch
        port now health bundle hc hb hi hbd]
      simp
    | true =>
      cases hl : launch.success with
      | false =>
        rw [postRun_launchFail w0 preFiles preDirExists projectId proj parsePkg exec launch
          port now health bundle hc hb hi hbd hl]
        simp
      | true =>
        rw [postRun_ok w0 preFiles preDirExists projectId proj parsePkg exec launch
          port now health bundle hc hb hi hbd hl]
        simp

theorem manifestAfter_empty (parsePkg : String → Option PackageJson) (proj : DbProject)
    (pf : List (List String × FileContent)) (projectId : String) :
    manifestAfter parsePkg proj pf (tempDirFor projectId) [] =
      { defaultPkg proj with scripts := canonicalScripts } := by
  unfold manifestAfter ensureManifest baseDisk writtenFiles materialize
  simp only [List.map_nil, List.append_nil]
  rw [lookupFile_clearedFiles]
  rfl

theorem diskAfter_empty (parsePkg : String → Option PackageJson) (proj : DbProject)
    (pf : List (List String × FileContent)) (projectId : String) :
    diskAfter parsePkg proj pf (tempDirFor projectId) [] =
      setFile (clearedFiles pf (tempDirFor projectId))
        (tempDirFor projectId ++ ["package.json"])
        (.pkg { defaultPkg proj with scripts := canonicalScripts }) := by
  unfold diskAfter
  rw [manifestAfter_empty]
  unfold baseDisk writtenFiles materialize
  simp only [List.map_nil, List.append_nil]

end PipelineLemmas

/-! ### Claims -/

/-- Claim C1 (code bug): the claim states that a generated file path with
parent-directory traversal segments that normalizes outside the workspace
root is rejected per-file and never materialized, so the workspace root
stays the common ancestor of every written file.  The materialization loop
has no such guard: for project `p1` the bundle entry `../evil.txt` is
written at `temp-projects/evil.txt`, which is not under the workspace root
`temp-projects/p1`. -/
theorem c1_traversal_written_outside_root :
    materialize (tempDirFor "p1") [("../evil.txt", "x")] =
      [(["temp-projects", "evil.txt"], "x")] ∧
    isUnder (tempDirFor "p1") ["temp-projects", "evil.txt"] = false := by
  decide

/-- Counterexample to claim C2 as stated: with a prior instance (process
id 7) registered for `p1`, a new successful run for `p1` registers the new
instance (process id 9) while the handler has killed no process at all —
the prior instance's process is not terminated before the new instance is
registered, contrary to the claim's "terminates its process". -/
theorem c2_prior_process_not_killed_cex :
    (postRun [("p1", ⟨3500, 7, ["temp-projects", "p1"], 0⟩)] [] true "p1"
        ⟨"app", none, true, [], []⟩ (fun _ => none) (fun _ => ⟨true, some "ok", none⟩)
        ⟨true, 9, none⟩ 3456 5 ⟨true, none, none⟩).killedPids = [] ∧
    (postRun [("p1", ⟨3500, 7, ["temp-projects", "p1"], 0⟩)] [] true "p1"
        ⟨"app", none, true, [], []⟩ (fun _ => none) (fun _ => ⟨true, some "ok", none⟩)
        ⟨true, 9, none⟩ 3456 5 ⟨true, none, none⟩).registry =
      [("p1", ⟨3456, 9, ["temp-projects", "p1"], 5⟩)] := by
  decide

/-- Claim C2 (amended): at every moment at most one instance is registered
per project identifier — the registry is a map keyed by the identifier,
`set` preserves key uniqueness, and after registration every entry under
the identifier is the new instance; a new run for the identifier
force-removes the prior instance's workspace contents before repopulating
it (afterwards every file under the workspace root comes from the new
bundle), and the prior registry entry is overwritten; but the prior
instance's process is NOT terminated by the new run — the handler kills no
process. -/
theorem c2_registry_exclusive_amended :
    (∀ (m : List (String × RunningInstance)) k v,
      (m.map Prod.fst).Nodup → ((setEntry m k v).map Prod.fst).Nodup) ∧
    (∀ (m : List (String × RunningInstance)) k v e, e ∈ setEntry m k v → e.1 = k →
      e = (k, v)) ∧
    (∀ w0 preFiles preDirExists projectId proj parsePkg exec launch port now health bundle,
      proj.completed = true →
      parseGeneratedFiles proj.generatedApis = .ok bundle →
      (exec 0).success = true →
      (exec ((setupCallsOf proj).length + 1)).success = true →
      launch.success = true →
      getEntry (postRun w0 preFiles preDirExists projectId proj parsePkg exec launch
          port now health).registry projectId =
        some ⟨port, launch.procId, tempDirFor projectId, now⟩) ∧
    (∀ w0 preFiles preDirExists projectId proj parsePkg exec launch port now health bundle p c,
      proj.completed = true →
      parseGeneratedFiles proj.generatedApis = .ok bundle →
      (p, FileContent.text c) ∈ (postRun w0 preFiles preDirExists projectId proj parsePkg
          exec launch port now health).fsFiles →
      isUnder (tempDirFor projectId) p = true →
      (p, c) ∈ materialize (tempDirFor projectId) bundle) ∧
    (∀ w0 preFiles preDirExists projectId proj parsePkg exec launch port now health,
      (postRun w0 preFiles preDirExists projectId proj parsePkg exec launch
          port now health).killedPids = []) := by
  refine ⟨setEntry_keys_nodup, fun m k v => setEntry_no_stale m k v, ?_, ?_, postRun_killedPids⟩
  · intro w0 preFiles preDirExists projectId proj parsePkg exec launch port now health
      bundle hc hb hi hbd hl
    rw [postRun_ok w0 preFiles preDirExists projectId proj parsePkg exec launch
      port now health bundle hc hb hi hbd hl]
    exact getEntry_setEntry w0 projectId _
  · intro w0 preFiles preDirExists projectId proj parsePkg exec launch port now health
      bundle p c hc hb hmem hunder
    rw [postRun_fsFiles_pipeline w0 preFiles preDirExists projectId proj parsePkg exec launch
      port now health bundle hc hb] at hmem
    exact diskAfter_text_mem parsePkg proj preFiles (tempDirFor projectId) bundle p c
      hmem hunder

/-- Witness for C2 (amended) at concrete inputs: overwriting the `p1`
entry keeps the key list duplicate-free; after a successful re-run the
lookup yields the new instance; a leftover file of the prior run is gone
from the workspace (only new-bundle files remain under the root); and the
handler killed nothing. -/
theorem c2_registry_exclusive_amended_witness :
    ((setEntry [("p1", ⟨3500, 7, ["temp-projects", "p1"], 0⟩)] "p1"
        ⟨3456, 9, ["temp-projects", "p1"], 5⟩).map Prod.fst).Nodup ∧
    getEntry (postRun [("p1", ⟨3500, 7, ["temp-projects", "p1"], 0⟩)]
        [(["temp-projects", "p1", "old.txt"], .text "leftover")] true "p1"
        ⟨"app", none, true, [.objBlob [("src/app.ts", "new")]], []⟩ (fun _ => none)
        (fun _ => ⟨true, some "ok", none⟩) ⟨true, 9, none⟩ 3456 5
        ⟨true, none, none⟩).registry "p1" =
      some ⟨3456, 9, ["temp-projects", "p1"], 5⟩ ∧
    (postRun [("p1", ⟨3500, 7, ["temp-projects", "p1"], 0⟩)]
        [(["temp-projects", "p1", "old.txt"], .text "leftover")] true "p1"
        ⟨"app", none, true, [.objBlob [("src/app.ts", "new")]], []⟩ (fun _ => none)
        (fun _ => ⟨true, some "ok", none⟩) ⟨true, 9, none⟩ 3456 5
        ⟨true, none, none⟩).killedPids = [] := by
  refine ⟨?_, ?_, ?_⟩
  · exact c2_registry_exclusive_amended.1 [("p1", ⟨3500, 7, ["temp-projects", "p1"], 0⟩)]
      "p1" ⟨3456, 9, ["temp-projects", "p1"], 5⟩ (by decide)
  · exact c2_registry_exclusive_amended.2.2.1 [("p1", ⟨3500, 7, ["temp-projects", "p1"], 0⟩)]
      [(["temp-projects", "p1", "old.txt"], .text "leftover")] true "p1"
      ⟨"app", none, true, [.objBlob [("src/app.ts", "new")]], []⟩ (fun _ => none)
      (fun _ => ⟨true, some "ok", none⟩) ⟨true, 9, none⟩ 3456 5 ⟨true, none, none⟩
      [("src/app.ts", "new")] rfl rfl rfl rfl rfl
  · exact c2_registry_exclusive_amended.2.2.2.2 [("p1", ⟨3500, 7, ["temp-projects", "p1"], 0⟩)]
      [(["temp-projects", "p1", "old.txt"], .text "leftover")] true "p1"
      ⟨"app", none, true, [.objBlob [("src/app.ts", "new")]], []⟩ (fun _ => none)
      (fun _ => ⟨true, some "ok", none⟩) ⟨true, 9, none⟩ 3456 5 ⟨true, none, none⟩

/-- Counterexample to claim C4 as stated: on a run whose `npm install`
exits nonzero, the handler does return the `npm install` step failure and
runs nothing further, but the early `return` skips the `catch`-block
cleanup: the workspace directory still exists and the materialized file is
still on disk, contradicting "the workspace directory no longer exists
afterward". -/
theorem c4_workspace_survives_install_failure_cex :
    (postRun [] [] false "p1" ⟨"app", none, true, [.objBlob [("src/app.ts", "x")]], []⟩
        (fun _ => none) (fun _ => ⟨false, none, some "npm ERR! code E404"⟩)
        ⟨true, 9, none⟩ 3456 5 ⟨true, none, none⟩).response =
      .stepFailure "npm install" (some "npm ERR! code E404") ∧
    (postRun [] [] false "p1" ⟨"app", none, true, [.objBlob [("src/app.ts", "x")]], []⟩
        (fun _ => none) (fun _ => ⟨false, none, some "npm ERR! code E404"⟩)
        ⟨true, 9, none⟩ 3456 5 ⟨true, none, none⟩).tempDirExists = true ∧
    (["temp-projects", "p1", "src", "app.ts"], FileContent.text "x") ∈
      (postRun [] [] false "p1" ⟨"app", none, true, [.objBlob [("src/app.ts", "x")]], []⟩
        (fun _ => none) (fun _ => ⟨false, none, some "npm ERR! code E404"⟩)
        ⟨true, 9, none⟩ 3456 5 ⟨true, none, none⟩).fsFiles := by
  decide

/-- Claim C4 (amended): a nonzero `npm install` exit halts the pipeline
before any setup, build, or launch step (the only executed command is the
install, no launch is attempted, no instance is registered, no reaper is
scheduled) and the response reports failure at step `npm install` carrying
the command's error — symmetrically `npm run build` for a failing build;
but cleanup is NOT attempted on these early-return failure paths (it runs
only in the catch block for thrown errors), so the workspace directory
still exists afterward. -/
theorem c4_install_failure_halts_amended :
    (∀ w0 preFiles preDirExists projectId proj parsePkg exec launch port now health bundle,
      proj.completed = true →
      parseGeneratedFiles proj.generatedApis = .ok bundle →
      (exec 0).success = false →
      (postRun w0 preFiles preDirExists projectId proj parsePkg exec launch
          port now health) =
        ⟨.stepFailure "npm install" (exec 0).error, [⟨"npm", ["install"]⟩],
          diskAfter parsePkg proj preFiles (tempDirFor projectId) bundle, true, w0,
          some (manifestAfter parsePkg proj preFiles (tempDirFor projectId) bundle),
          [], false, false⟩) ∧
    (∀ w0 preFiles preDirExists projectId proj parsePkg exec launch port now health bundle,
      proj.completed = true →
      parseGeneratedFiles proj.generatedApis = .ok bundle →
      (exec 0).success = true →
      (exec ((setupCallsOf proj).length + 1)).success = false →
      (postRun w0 preFiles preDirExists projectId proj parsePkg exec launch
          port now health) =
        ⟨.stepFailure "npm run build" (exec ((setupCallsOf proj).length + 1)).error,
          callsAll proj,
          diskAfter parsePkg proj preFiles (tempDirFor projectId) bundle, true, w0,
          some (manifestAfter parsePkg proj preFiles (tempDirFor projectId) bundle),
          [], false, false⟩) :=
  ⟨fun w0 preFiles preDirExists projectId proj parsePkg exec launch port now health bundle
      hc hb hi =>
    postRun_installFail w0 preFiles preDirExists projectId proj parsePkg exec launch
      port now health bundle hc hb hi,
   fun w0 preFiles preDirExists projectId proj parsePkg exec launch port now health bundle
      hc hb hi hbd =>
    postRun_buildFail w0 preFiles preDirExists projectId proj parsePkg exec launch
      port now health bundle hc hb hi hbd⟩

/-- Witness for C4 (amended) at concrete inputs: a failing install halts
with only the install command executed, the workspace still on disk, the
registry untouched, no launch, no reaper; a failing build reports its step
with the workspace still on disk. -/
theorem c4_install_failure_halts_amended_witness :
    (postRun [] [] false "p1" ⟨"app", none, true, [], []⟩ (fun _ => none)
        (fun _ => ⟨false, none, some "npm ERR! code E404"⟩) ⟨true, 9, none⟩ 3456 5
        ⟨true, none, none⟩) =
      ⟨.stepFailure "npm install" (some "npm ERR! code E404"), [⟨"npm", ["install"]⟩],
        diskAfter (fun _ => none) ⟨"app", none, true, [], []⟩ [] (tempDirFor "p1") [],
        true, [],
        some (manifestAfter (fun _ => none) ⟨"app", none, true, [], []⟩ [] (tempDirFor "p1") []),
        [], false, false⟩ ∧
    (postRun [] [] false "p1" ⟨"app", none, true, [], []⟩ (fun _ => none)
        (fun i => if i = 0 then ⟨true, some "installed", none⟩
          else ⟨false, none, some "tsc: error TS1005"⟩) ⟨true, 9, none⟩ 3456 5
        ⟨true, none, none⟩) =
      ⟨.stepFailure "npm run build" (some "tsc: error TS1005"),
        callsAll ⟨"app", none, true, [], []⟩,
        diskAfter (fun _ => none) ⟨"app", none, true, [], []⟩ [] (tempDirFor "p1") [],
        true, [],
        some (manifestAfter (fun _ => none) ⟨"app", none, true, [], []⟩ [] (tempDirFor "p1") []),
        [], false, false⟩ := by
  refine ⟨?_, ?_⟩
  · exact c4_install_failure_halts_amended.1 [] [] false "p1" ⟨"app", none, true, [], []⟩
      (fun _ => none) (fun _ => ⟨false, none, some "npm ERR! code E404"⟩) ⟨true, 9, none⟩
      3456 5 ⟨true, none, none⟩ [] rfl rfl rfl
  · exact c4_install_failure_halts_amended.2 [] [] false "p1" ⟨"app", none, true, [], []⟩
      (fun _ => none)
      (fun i => if i = 0 then ⟨true, some "installed", none⟩
        else ⟨false, none, some "tsc: error TS1005"⟩)
      ⟨true, 9, none⟩ 3456 5 ⟨true, none, none⟩ [] rfl rfl rfl rfl

/-- Claim C3 (code bug): the claim states that for a launch that reaches
Ready within the 30-second window, the startup timer does not kill the
server process and the process stays alive until the 5-minute reaper.  The
`setTimeout` in `startServer` is never cleared: on the trace where the
readiness phrase appears as the first output chunk and the process neither
exits nor errors, the result is resolved `ready`, and yet when the timer
fires at the 30-second mark it calls `kill()` on the still-running process
(`killed` and `killedLive` both end `true`). -/
theorem c3_ready_process_killed_by_timer :
    startServer [.stdoutData "Server running on port 3001", .startupTimer] =
      ⟨"Server running on port 3001", "", some .ready, true, false, true⟩ := by
  decide

/-- Claim C8 (confirmed): `runCommand` resolves success with the captured
stdout exactly when the process closes with exit code 0; a nonzero (or
null) exit code resolves failure with the captured stderr, or with the
synthesized `Command failed with code N` message when stderr is empty; and
a spawn-level error resolves failure with the error message.  Being a
total function into `CommandResult`, the operation never throws past this
boundary. -/
theorem c8_runCommand_spec :
    (∀ o : SpawnOutcome, (runCommand o).success = true ↔
        ∃ out err, o = .closed (some 0) out err) ∧
    (∀ out err, runCommand (.closed (some 0) out err) = ⟨true, some out, none⟩) ∧
    (∀ code out err, code ≠ some 0 → err ≠ "" →
        runCommand (.closed code out err) = ⟨false, none, some err⟩) ∧
    (∀ code out, code ≠ some 0 →
        runCommand (.closed code out "") =
          ⟨false, none, some ("Command failed with code " ++ codeText code)⟩) ∧
    (∀ msg, runCommand (.errored msg) = ⟨false, none, some msg⟩) := by
  refine ⟨?_, ?_, ?_, ?_, ?_⟩
  · intro o
    constructor
    · intro h
      match o with
      | .errored m => simp [runCommand] at h
      | .closed code out err =>
        by_cases hc : code = some 0
        · exact ⟨out, err, by rw [hc]⟩
        · simp [runCommand, hc] at h
    · rintro ⟨out, err, rfl⟩
      simp [runCommand]
  · intro out err
    simp [runCommand]
  · intro code out err hc he
    simp [runCommand, hc, he]
  · intro code out hc
    simp [runCommand, hc]
  · intro msg
    rfl

/-- Witness for C8 at concrete inputs: exit code 0 with output, nonzero
exit with stderr, nonzero exit with empty stderr, and a spawn error. -/
theorem c8_runCommand_spec_witness :
    runCommand (.closed (some 0) "added 12 packages" "") =
      ⟨true, some "added 12 packages", none⟩ ∧
    runCommand (.closed (some 2) "" "tsc: error TS1005") =
      ⟨false, none, some "tsc: error TS1005"⟩ ∧
    runCommand (.closed (some 2) "" "") =
      ⟨false, none, some "Command failed with code 2"⟩ ∧
    runCommand (.errored "spawn npm ENOENT") = ⟨false, none, some "spawn npm ENOENT"⟩ :=
  ⟨c8_runCommand_spec.2.1 "added 12 packages" "",
   c8_runCommand_spec.2.2.1 (some 2) "" "tsc: error TS1005" (by decide) (by decide),
   (c8_runCommand_spec.2.2.2.1 (some 2) "" (by decide)).trans (by decide),
   c8_runCommand_spec.2.2.2.2 "spawn npm ENOENT"⟩

/-- Counterexample to claim C6 as stated: the source splits a setup
command with `split(' ')` — only at space characters — not at whitespace
generally.  For the declared command `npm<TAB>install`, the executed call
is program `npm<TAB>install` with no arguments, while the claimed
whitespace split would give program `npm` with argument `install`. -/
theorem c6_space_split_cex :
    (postRun [] [] false "p1" ⟨"app", none, true, [], [⟨"npm\tinstall", 1⟩]⟩ (fun _ => none)
        (fun _ => ⟨true, some "ok", none⟩) ⟨true, 9, none⟩ 3456 5 ⟨true, none, none⟩).calls =
      [⟨"npm", ["install"]⟩, ⟨"npm\tinstall", []⟩, ⟨"npm", ["run", "build"]⟩] ∧
    wsSplitCmdSpec "npm\tinstall" = ⟨"npm", ["install"]⟩ ∧
    splitCmd "npm\tinstall" ≠ wsSplitCmdSpec "npm\tinstall" := by
  decide

/-- Claim C6 (amended): setup commands execute sequentially and strictly
in ascending declared `order` (the database applies the ascending sort and
the loop runs it in sequence — the executed command list is install, then
the sorted setup commands, then build), each command string is split on
the space character (not on general whitespace: consecutive spaces yield
empty arguments and tabs are not split) into a program and argument
vector, and a failing setup command does not abort the pipeline — the
command list, including the build step, is the same whatever results the
setup commands produce. -/
theorem c6_setup_order_amended :
    (∀ w0 preFiles preDirExists projectId proj parsePkg exec launch port now health bundle,
      proj.completed = true →
      parseGeneratedFiles proj.generatedApis = .ok bundle →
      (exec 0).success = true →
      (postRun w0 preFiles preDirExists projectId proj parsePkg exec launch
          port now health).calls =
        ⟨"npm", ["install"]⟩ ::
          (sortSetup proj.setupCommands).map (fun c => splitCmd c.command) ++
          [⟨"npm", ["run", "build"]⟩]) ∧
    (∀ l : List SetupCmd, List.Sorted setupLe (sortSetup l)) ∧
    (∀ l : List SetupCmd, List.Perm (sortSetup l) l) ∧
    (∀ s : String, splitCmd s = ⟨(splitStr ' ' s).headD "", (splitStr ' ' s).tail⟩) ∧
    (∀ w0 preFiles preDirExists projectId proj parsePkg exec launch port now health bundle,
      proj.completed = true →
      parseGeneratedFiles proj.generatedApis = .ok bundle →
      (exec 0).success = true →
      (⟨"npm", ["run", "build"]⟩ : CmdCall) ∈
        (postRun w0 preFiles preDirExists projectId proj parsePkg exec launch
          port now health).calls) := by
  refine ⟨?_, ?_, ?_, ?_, ?_⟩
  · intro w0 preFiles preDirExists projectId proj parsePkg exec launch port now health
      bundle hc hb hi
    rw [postRun_calls_pipeline w0 preFiles preDirExists projectId proj parsePkg exec launch
      port now health bundle hc hb hi]
    rfl
  · intro l
    exact List.sorted_insertionSort setupLe l
  · intro l
    exact List.perm_insertionSort setupLe l
  · intro s
    unfold splitCmd splitStr splitCharList
    cases hs : s.data.foldr
      (fun c acc =>
        match acc with
        | [] => [[c]]
        | g :: gs => if c = ' ' then [] :: (g :: gs) else (c :: g) :: gs)
      [[]] with
    | nil => rfl
    | cons g gs => rfl
  · intro w0 preFiles preDirExists projectId proj parsePkg exec launch port now health
      bundle hc hb hi
    rw [postRun_calls_pipeline w0 preFiles preDirExists projectId proj parsePkg exec launch
      port now health bundle hc hb hi]
    simp [callsAll]

/-- Witness for C6 (amended): declared orders [3,1,2] are executed as
1,2,3 (between install and build), and a run where every setup command
fails still executes the build command. -/
theorem c6_setup_order_amended_witness :
    (postRun [] [] false "p1"
        ⟨"app", none, true, [],
          [⟨"npx prisma generate", 3⟩, ⟨"echo one", 1⟩, ⟨"npx prisma migrate", 2⟩]⟩
        (fun _ => none)
        (fun i => if i = 0 then ⟨true, some "ok", none⟩
          else ⟨false, none, some "setup failed"⟩)
        ⟨true, 9, none⟩ 3456 5 ⟨true, none, none⟩).calls =
      [⟨"npm", ["install"]⟩, ⟨"echo", ["one"]⟩, ⟨"npx", ["prisma", "migrate"]⟩,
        ⟨"npx", ["prisma", "generate"]⟩, ⟨"npm", ["run", "build"]⟩] ∧
    (⟨"npm", ["run", "build"]⟩ : CmdCall) ∈
      (postRun [] [] false "p1"
        ⟨"app", none, true, [],
          [⟨"npx prisma generate", 3⟩, ⟨"echo one", 1⟩, ⟨"npx prisma migrate", 2⟩]⟩
        (fun _ => none)
        (fun i => if i = 0 then ⟨true, some "ok", none⟩
          else ⟨false, none, some "setup failed"⟩)
        ⟨true, 9, none⟩ 3456 5 ⟨true, none, none⟩).calls := by
  constructor
  · have h := c6_setup_order_amended.1 [] [] false "p1"
      ⟨"app", none, true, [],
        [⟨"npx prisma generate", 3⟩, ⟨"echo one", 1⟩, ⟨"npx prisma migrate", 2⟩]⟩
      (fun _ => none)
      (fun i => if i = 0 then ⟨true, some "ok", none⟩
        else ⟨false, none, some "setup failed"⟩)
      ⟨true, 9, none⟩ 3456 5 ⟨true, none, none⟩ [] rfl rfl rfl
    exact h.trans (by decide)
  · exact c6_setup_order_amended.2.2.2.2 [] [] false "p1"
      ⟨"app", none, true, [],
        [⟨"npx prisma generate", 3⟩, ⟨"echo one", 1⟩, ⟨"npx prisma migrate", 2⟩]⟩
      (fun _ => none)
      (fun i => if i = 0 then ⟨true, some "ok", none⟩
        else ⟨false, none, some "setup failed"⟩)
      ⟨true, 9, none⟩ 3456 5 ⟨true, none, none⟩ [] rfl rfl rfl

/-- Counterexample to claim C7 as stated: the reaper's three steps share a
single try/catch, so when the kill step throws, the workspace deletion and
the registry removal are both skipped — a failure in one step does prevent
the other two from being attempted. -/
theorem c7_kill_failure_skips_rest_cex :
    (reaper [("p1", ⟨3500, 7, ["temp-projects", "p1"], 0⟩)] "p1" true false).rmTried = false ∧
    (reaper [("p1", ⟨3500, 7, ["temp-projects", "p1"], 0⟩)] "p1" true false).deleteTried
      = false ∧
    (reaper [("p1", ⟨3500, 7, ["temp-projects", "p1"], 0⟩)] "p1" true false).registry =
      [("p1", ⟨3500, 7, ["temp-projects", "p1"], 0⟩)] ∧
    (reaper [("p1", ⟨3500, 7, ["temp-projects", "p1"], 0⟩)] "p1" true false).raised = false := by
  decide

/-- Claim C7 (amended): when the reaper fires it looks up the instance,
terminates the process if present, deletes the workspace, and removes the
registry entry, all inside one guard: no failure ever propagates out of
the reaper (it is logged); but the steps are not individually best-effort —
a throwing kill skips both the workspace deletion and the registry
removal, and a throwing workspace deletion skips the registry removal. -/
theorem c7_reaper_single_guard_amended :
    (∀ reg pid kf rf, (reaper reg pid kf rf).raised = false) ∧
    (∀ reg pid rf inst, getEntry reg pid = some inst →
      reaper reg pid true rf = ⟨true, false, false, reg, none, false, false⟩) ∧
    (∀ reg pid inst, getEntry reg pid = some inst →
      reaper reg pid false true = ⟨true, true, false, reg, some inst.procId, false, false⟩) ∧
    (∀ reg pid inst, getEntry reg pid = some inst →
      reaper reg pid false false =
        ⟨true, true, true, removeEntry reg pid, some inst.procId, true, false⟩) ∧
    (∀ reg pid, getEntry reg pid = none →
      reaper reg pid false false =
        ⟨false, true, true, removeEntry reg pid, none, true, false⟩) := by
  refine ⟨?_, ?_, ?_, ?_, ?_⟩
  · intro reg pid kf rf
    unfold reaper
    split
    · split
      · rfl
      · split <;> rfl
    · split <;> rfl
  · intro reg pid rf inst h
    unfold reaper
    rw [h]
    rfl
  · intro reg pid inst h
    unfold reaper
    rw [h]
    rfl
  · intro reg pid inst h
    unfold reaper
    rw [h]
    rfl
  · intro reg pid h
    unfold reaper
    rw [h]
    rfl

/-- Witness for C7 (amended) at a concrete registry: a failing kill skips
the other two steps without raising; a failing removal skips the registry
delete; and with no failures all three steps run and the entry is gone. -/
theorem c7_reaper_single_guard_amended_witness :
    (reaper [("p1", ⟨3500, 7, ["temp-projects", "p1"], 0⟩)] "p1" false true).raised = false ∧
    reaper [("p1", ⟨3500, 7, ["temp-projects", "p1"], 0⟩)] "p1" false true =
      ⟨true, true, false, [("p1", ⟨3500, 7, ["temp-projects", "p1"], 0⟩)], some 7,
        false, false⟩ ∧
    reaper [("p1", ⟨3500, 7, ["temp-projects", "p1"], 0⟩)] "p1" false false =
      ⟨true, true, true, [], some 7, true, false⟩ ∧
    reaper [] "p1" false false = ⟨false, true, true, [], none, true, false⟩ := by
  refine ⟨?_, ?_, ?_, ?_⟩
  · exact c7_reaper_single_guard_amended.1 [("p1", ⟨3500, 7, ["temp-projects", "p1"], 0⟩)]
      "p1" false true
  · exact (c7_reaper_single_guard_amended.2.2.1
      [("p1", ⟨3500, 7, ["temp-projects", "p1"], 0⟩)] "p1"
      ⟨3500, 7, ["temp-projects", "p1"], 0⟩ rfl).trans (by decide)
  · exact (c7_reaper_single_guard_amended.2.2.2.1
      [("p1", ⟨3500, 7, ["temp-projects", "p1"], 0⟩)] "p1"
      ⟨3500, 7, ["temp-projects", "p1"], 0⟩ rfl).trans (by decide)
  · exact (c7_reaper_single_guard_amended.2.2.2.2 [] "p1" rfl).trans (by decide)

/-- Claim C10 (confirmed): a completed generation record with no
generated-API rows, or whose code blob parses to an empty object, is not
rejected as a parse failure: the parse yields the empty bundle and the
response is never the 500 parse-failure; zero files are materialized (the
scratch area afterwards holds only the synthesized manifest beside the
untouched files outside the workspace); the synthesized default manifest
carries exactly the canonical scripts; and the pipeline still attempts
`npm install` (the first executed command) and, when the install succeeds,
`npm run build` in the otherwise-empty workspace. -/
theorem c10_empty_bundle_proceeds :
    ∀ w0 preFiles preDirExists projectId name desc scs apis parsePkg exec launch
      port now health,
      (apis = [] ∨ apis = [CodeBlob.objBlob []]) →
      parseGeneratedFiles apis = .ok [] ∧
      (postRun w0 preFiles preDirExists projectId ⟨name, desc, true, apis, scs⟩ parsePkg
          exec launch port now health).response ≠ .parseFailure ∧
      (postRun w0 preFiles preDirExists projectId ⟨name, desc, true, apis, scs⟩ parsePkg
          exec launch port now health).manifest =
        some { defaultPkg ⟨name, desc, true, apis, scs⟩ with scripts := canonicalScripts } ∧
      (postRun w0 preFiles preDirExists projectId ⟨name, desc, true, apis, scs⟩ parsePkg
          exec launch port now health).fsFiles =
        setFile (clearedFiles preFiles (tempDirFor projectId))
          (tempDirFor projectId ++ ["package.json"])
          (.pkg { defaultPkg ⟨name, desc, true, apis, scs⟩ with
            scripts := canonicalScripts }) ∧
      (postRun w0 preFiles preDirExists projectId ⟨name, desc, true, apis, scs⟩ parsePkg
          exec launch port now health).calls.head? = some ⟨"npm", ["install"]⟩ ∧
      ((exec 0).success = true →
        (⟨"npm", ["run", "build"]⟩ : CmdCall) ∈
          (postRun w0 preFiles preDirExists projectId ⟨name, desc, true, apis, scs⟩ parsePkg
            exec launch port now health).calls) := by
  intro w0 preFiles preDirExists projectId name desc scs apis parsePkg exec launch
    port now health hA
  have hb : parseGeneratedFiles apis = .ok [] := by
    rcases hA with rfl | rfl <;> rfl
  refine ⟨hb, ?_, ?_, ?_, ?_, ?_⟩
  · exact postRun_response_not_parseFailure w0 preFiles preDirExists projectId
      ⟨name, desc, true, apis, scs⟩ parsePkg exec launch port now health [] rfl hb
  · rw [postRun_manifest_pipeline w0 preFiles preDirExists projectId
      ⟨name, desc, true, apis, scs⟩ parsePkg exec launch port now health [] rfl hb]
    rw [manifestAfter_empty]
  · rw [postRun_fsFiles_pipeline w0 preFiles preDirExists projectId
      ⟨name, desc, true, apis, scs⟩ parsePkg exec launch port now health [] rfl hb]
    rw [diskAfter_empty]
  · exact postRun_calls_head w0 preFiles preDirExists projectId
      ⟨name, desc, true, apis, scs⟩ parsePkg exec launch port now health [] rfl hb
  · intro hi
    rw [postRun_calls_pipeline w0 preFiles preDirExists projectId
      ⟨name, desc, true, apis, scs⟩ parsePkg exec launch port now health [] rfl hb hi]
    simp [callsAll]

/-- Witness for C10: a completed record with no generated-API rows runs
through — install then build are the executed commands, the manifest holds
exactly the canonical scripts, the only file in the fresh workspace is the
manifest, and the response is the step/success response, not a parse
failure. -/
theorem c10_empty_bundle_proceeds_witness :
    parseGeneratedFiles [] = .ok [] ∧
    (postRun [] [] false "p1" ⟨"My App", none, true, [], []⟩ (fun _ => none)
        (fun _ => ⟨true, some "ok", none⟩) ⟨true, 9, none⟩ 3456 5
        ⟨true, none, none⟩).response ≠ .parseFailure ∧
    (postRun [] [] false "p1" ⟨"My App", none, true, [], []⟩ (fun _ => none)
        (fun _ => ⟨true, some "ok", none⟩) ⟨true, 9, none⟩ 3456 5
        ⟨true, none, none⟩).manifest =
      some ⟨"my-app", "1.0.0", "", "dist/app.js", canonicalScripts, [], []⟩ ∧
    (postRun [] [] false "p1" ⟨"My App", none, true, [], []⟩ (fun _ => none)
        (fun _ => ⟨true, some "ok", none⟩) ⟨true, 9, none⟩ 3456 5
        ⟨true, none, none⟩).calls.head? = some ⟨"npm", ["install"]⟩ ∧
    (⟨"npm", ["run", "build"]⟩ : CmdCall) ∈
      (postRun [] [] false "p1" ⟨"My App", none, true, [], []⟩ (fun _ => none)
        (fun _ => ⟨true, some "ok", none⟩) ⟨true, 9, none⟩ 3456 5
        ⟨true, none, none⟩).calls := by
  have h := c10_empty_bundle_proceeds [] [] false "p1" "My App" none [] [] (fun _ => none)
    (fun _ => ⟨true, some "ok", none⟩) ⟨true, 9, none⟩ 3456 5 ⟨true, none, none⟩ (.inl rfl)
  refine ⟨h.1, h.2.1, ?_, h.2.2.2.2.1, h.2.2.2.2.2 rfl⟩
  · exact h.2.2.1.trans (by decide)

/-- Claim C5 (confirmed): the launcher resolves success (`ready`, with the
live process handle attached) on the first stdout chunk that makes the
cumulative output contain a readiness substring, given that nothing
resolved earlier; resolves failure carrying the captured stderr when the
process closes with a nonzero code before readiness; resolves the
`Server startup timeout` failure, invoking `kill()` on the process, when
the 30-second timer fires with nothing resolved — i.e. no readiness phrase
within 30 seconds; and on every launch failure the orchestrator returns
before `runningProjects.set`, so the registry is unchanged. -/
theorem c5_launcher_outcomes :
    (∀ pre c post, resolvedOf pre = none → hasReadiness (outputOf pre ++ c) = true →
      resolvedOf (pre ++ .stdoutData c :: post) = some .ready) ∧
    (∀ pre code post, resolvedOf pre = none → code ≠ some 0 →
      resolvedOf (pre ++ .closed code :: post) =
        some (.failed (exitMsg code (errbufOf pre)))) ∧
    (∀ pre post, resolvedOf pre = none →
      resolvedOf (pre ++ .startupTimer :: post) = some (.failed "Server startup timeout") ∧
      (startServer (pre ++ .startupTimer :: post)).killed = true) ∧
    (∀ w0 preFiles preDirExists projectId proj parsePkg exec launch port now health,
      launch.success = false →
      (postRun w0 preFiles preDirExists projectId proj parsePkg exec launch
          port now health).registry = w0) := by
  refine ⟨?_, ?_, ?_, ?_⟩
  · intro pre c post h hr
    unfold resolvedOf
    rw [startServer_append_cons]
    apply resolved_stays
    simp only [stepServer]
    rw [show (startServer pre).resolved = none from h]
    rw [show hasReadiness ((startServer pre).output ++ c) = true from hr]
    rfl
  · intro pre code post h hcode
    unfold resolvedOf
    rw [startServer_append_cons]
    apply resolved_stays
    simp only [stepServer]
    rw [show (startServer pre).resolved = none from h]
    simp [keepFirst, hcode, exitMsg, errbufOf]
  · intro pre post h
    constructor
    · unfold resolvedOf
      rw [startServer_append_cons]
      apply resolved_stays
      simp only [stepServer]
      rw [show (startServer pre).resolved = none from h]
      rfl
    · rw [startServer_append_cons]
      apply killed_stays
      simp [stepServer]
  · intro w0 preFiles preDirExists projectId proj parsePkg exec launch port now health hl
    exact postRun_registry_of_launchFail w0 preFiles preDirExists projectId proj parsePkg
      exec launch port now health hl

/-- Witness for C5 at concrete traces: readiness in the first chunk
resolves `ready`; a nonzero exit after a stderr chunk resolves the
exit failure carrying that stderr; a trace with no readiness before the
timer resolves the startup timeout with the process killed; and a run
whose launch failed leaves the (empty) registry unchanged. -/
theorem c5_launcher_outcomes_witness :
    resolvedOf [.stdoutData "Listening on port 4000"] = some .ready ∧
    resolvedOf [.stderrData "crash", .closed (some 1)] =
      some (.failed "Server process exited with code 1: crash") ∧
    resolvedOf [.stdoutData "compiling...", .startupTimer] =
      some (.failed "Server startup timeout") ∧
    (startServer [.stdoutData "compiling...", .startupTimer]).killed = true ∧
    (postRun [] [] false "p1" ⟨"app", none, true, [], []⟩ (fun _ => none)
        (fun _ => ⟨true, some "ok", none⟩) ⟨false, 0, some "Server startup timeout"⟩
        3456 5 ⟨true, none, none⟩).registry = [] := by
  refine ⟨?_, ?_, ?_, ?_, ?_⟩
  · exact c5_launcher_outcomes.1 [] "Listening on port 4000" [] (by decide) (by decide)
  · exact (c5_launcher_outcomes.2.1 [.stderrData "crash"] (some 1) [] (by decide)
      (by decide)).trans (by decide)
  · exact (c5_launcher_outcomes.2.2.1 [.stdoutData "compiling..."] [] (by decide)).1
  · exact (c5_launcher_outcomes.2.2.1 [.stdoutData "compiling..."] [] (by decide)).2
  · exact c5_launcher_outcomes.2.2.2 [] [] false "p1" ⟨"app", none, true, [], []⟩
      (fun _ => none) (fun _ => ⟨true, some "ok", none⟩)
      ⟨false, 0, some "Server startup timeout"⟩ 3456 5 ⟨true, none, none⟩ rfl

/-- Claim C9 (confirmed): `testHealthEndpoint` returns success with the
decoded JSON body exactly when the GET yields a 2xx (`response.ok`)
status; a non-2xx status yields failure with the descriptive
`HTTP status: statusText` message, and a thrown network error yields
failure with its message.  Moreover a probe failure never aborts a run
whose launch succeeded: whatever the probe result, the handler still
returns the overall success response with the probe outcome attached. -/
theorem c9_probe_spec :
    (∀ res : Except String HttpResponse,
      (testHealthEndpoint res).success = true ↔ ∃ r, res = .ok r ∧ respOk r = true) ∧
    (∀ r, respOk r = true → testHealthEndpoint (.ok r) = ⟨true, some r.body, none⟩) ∧
    (∀ r, respOk r = false →
      testHealthEndpoint (.ok r) =
        ⟨false, none, some ("HTTP " ++ toString r.status ++ ": " ++ r.statusText)⟩) ∧
    (∀ msg, testHealthEndpoint (.error msg) = ⟨false, none, some msg⟩) ∧
    (∀ w0 preFiles preDirExists projectId proj parsePkg exec launch port now health bundle,
      proj.completed = true →
      parseGeneratedFiles proj.generatedApis = .ok bundle →
      (exec 0).success = true →
      (exec ((setupCallsOf proj).length + 1)).success = true →
      launch.success = true →
      (postRun w0 preFiles preDirExists projectId proj parsePkg exec launch
          port now health).response =
        .succeeded port health (exec ((setupCallsOf proj).length + 1)).output) := by
  refine ⟨?_, ?_, ?_, ?_, ?_⟩
  · intro res
    constructor
    · intro h
      match res with
      | .error m => simp [testHealthEndpoint] at h
      | .ok r =>
        by_cases hr : respOk r = true
        · exact ⟨r, rfl, hr⟩
        · simp [testHealthEndpoint, hr] at h
    · rintro ⟨r, rfl, hr⟩
      simp [testHealthEndpoint, hr]
  · intro r hr
    simp [testHealthEndpoint, hr]
  · intro r hr
    simp [testHealthEndpoint, hr]
  · intro msg
    rfl
  · intro w0 preFiles preDirExists projectId proj parsePkg exec launch port now health
      bundle hc hb hi hbd hl
    rw [postRun_ok w0 preFiles preDirExists projectId proj parsePkg exec launch
      port now health bundle hc hb hi hbd hl]

/-- Witness for C9 at concrete inputs: a 200 probe, a 503 probe, a network
error, and a full run whose probe failed but whose response is still the
overall success carrying that failed probe. -/
theorem c9_probe_spec_witness :
    testHealthEndpoint (.ok ⟨200, "OK", "status healthy"⟩) =
      ⟨true, some "status healthy", none⟩ ∧
    testHealthEndpoint (.ok ⟨503, "Service Unavailable", ""⟩) =
      ⟨false, none, some "HTTP 503: Service Unavailable"⟩ ∧
    testHealthEndpoint (.error "fetch failed") = ⟨false, none, some "fetch failed"⟩ ∧
    (postRun [] [] false "p1" ⟨"app", none, true, [], []⟩ (fun _ => none)
        (fun _ => ⟨true, some "build ok", none⟩) ⟨true, 9, none⟩ 3456 5
        ⟨false, none, some "fetch failed"⟩).response =
      .succeeded 3456 ⟨false, none, some "fetch failed"⟩ (some "build ok") := by
  refine ⟨?_, ?_, ?_, ?_⟩
  · exact (c9_probe_spec.2.1 ⟨200, "OK", "status healthy"⟩ (by decide))
  · exact (c9_probe_spec.2.2.1 ⟨503, "Service Unavailable", ""⟩ (by decide)).trans (by decide)
  · exact c9_probe_spec.2.2.2.1 "fetch failed"
  · exact (c9_probe_spec.2.2.2.2 [] [] false "p1" ⟨"app", none, true, [], []⟩ (fun _ => none)
      (fun _ => ⟨true, some "build ok", none⟩) ⟨true, 9, none⟩ 3456 5
      ⟨false, none, some "fetch failed"⟩ [] rfl rfl rfl rfl rfl)

end Sandbox
